import Mathlib

/-!
Verification of the Dayflow HR service (Python/FastAPI, two application
variants under `backend/server.py` and `dayflow/backend/server.py`).

The persistent document store is modelled as Lean lists of fixed-shape
records; `find_one` becomes `List.find?`, `update_one` becomes
`updateFirst` (both update at most the first matching document).
Password hashing, JWT signing and the wall clock are injected as function
parameters, since they are external to the logic under scrutiny.
Python strings are `String` (or `List Char` where character-level
reasoning is needed), Python floats holding money/hours are `ℚ`,
timestamps are seconds as `Int`.
-/

namespace Dayflow

/- ## Identifier generation (backend/server.py, generate_login_id) -/

/-- One decimal digit as a character, mirroring Python's decimal `str`. -/
def digitChar (d : Nat) : Char := Char.ofNat (48 + d)

/-- Fuel-driven decimal digit expansion, accumulator style (the fuel
`n + 1` in `natDigits` always suffices). -/
def natDigitsGo : Nat → Nat → List Char → List Char
  | 0, _, acc => acc
  | fuel + 1, n, acc =>
    if n < 10 then digitChar n :: acc
    else natDigitsGo fuel (n / 10) (digitChar (n % 10) :: acc)

/-- Decimal digits of `n`, mirroring Python `str(n)` for `n : Nat`. -/
def natDigits (n : Nat) : List Char := natDigitsGo (n + 1) n []

/-- Python `str.zfill(w)`: left-pad with `'0'` up to width `w`. -/
def zfill (w : Nat) (s : List Char) : List Char :=
  List.replicate (w - s.length) '0' ++ s

/-- The fixed organization code `"DF"` of backend/server.py line 211. -/
def companyCode : List Char := ['D', 'F']

/-- backend/server.py lines 210-218.  The document-count read
(`count_documents` over employees whose `date_of_joining` starts with
`year`) is passed in as `count`; the rest is the literal computation:
slice the first two characters of each name, upper-case them, and append
the year and the zero-filled serial `count + 1`. -/
def generate_login_id (first_name last_name year : List Char) (count : Nat) :
    List Char :=
  companyCode ++ (first_name.take 2).map Char.toUpper
    ++ (last_name.take 2).map Char.toUpper
    ++ year ++ zfill 4 (natDigits (count + 1))

/- ## The serial-issuance protocol of dayflow/backend/server.py
(lines 118-146): `generate_login_id` reads the per-year counter document
with `find_one` and computes `current_serial + 1` (or `1` when the
document is missing); `increment_counter` later writes the serial back
with a separate `$set` upsert.  Two concurrent issuance calls for the
same year are modelled as interleavings of their read and write steps
against the shared counter. -/

/-- dayflow/backend/server.py lines 129-134: the serial a call computes
from the counter document it read. -/
def readSerial : Option Nat → Nat
  | some current => current + 1
  | none => 1

/-- dayflow/backend/server.py lines 141-146 (`increment_counter`): the
counter is overwritten with `$set {current_serial: serial}` (upsert);
it is not an atomic increment. -/
def writeCounter (_counter : Option Nat) (serial : Nat) : Option Nat :=
  some serial

/-- Atomic steps of two concurrent issuance calls: each call reads the
counter once and later writes its serial back. -/
inductive IssueStep
  | read1
  | write1
  | read2
  | write2
deriving DecidableEq

/-- Shared counter plus the serial each call has computed so far. -/
structure IssueState where
  counter : Option Nat
  serial1 : Option Nat
  serial2 : Option Nat
deriving DecidableEq

def stepIssue (s : IssueState) : IssueStep → IssueState
  | .read1 => { s with serial1 := some (readSerial s.counter) }
  | .write1 =>
    match s.serial1 with
    | some n => { s with counter := writeCounter s.counter n }
    | none => s
  | .read2 => { s with serial2 := some (readSerial s.counter) }
  | .write2 =>
    match s.serial2 with
    | some n => { s with counter := writeCounter s.counter n }
    | none => s

def runIssue (s : IssueState) (sched : List IssueStep) : IssueState :=
  sched.foldl stepIssue s

/-- No counter document exists yet for the year (lazy creation). -/
def initIssue : IssueState := ⟨none, none, none⟩

/- ## Shared store helpers -/

/-- Mongo `update_one`: apply `f` to the first element matching `p`,
leave everything else unchanged. -/
def updateFirst {α : Type} (l : List α) (p : α → Bool) (f : α → α) : List α :=
  match l with
  | [] => []
  | x :: xs => if p x then f x :: xs else x :: updateFirst xs p f

/-- HTTPException: status code plus detail message. -/
structure HErr where
  statusCode : Nat
  detail : String
deriving DecidableEq

/-- Python `str.upper()` restricted to its ASCII behaviour, as a
structural map over the character data (the identifiers at issue are
ASCII). -/
def strToUpper (s : String) : String := ⟨s.data.map Char.toUpper⟩

/- ## Employee documents and authentication (backend/server.py) -/

/-- The employee document inserted by `create_employee`
(backend/server.py lines 265-299). -/
structure EmployeeDoc where
  employee_id : String
  login_id : String
  password : String
  must_change_password : Bool
  first_name : String
  last_name : String
  email : String
  mobile : Option String
  job_position : Option String
  department : Option String
  manager : Option String
  location : Option String
  date_of_birth : Option String
  address : Option String
  nationality : Option String
  personal_email : Option String
  gender : Option String
  marital_status : Option String
  date_of_joining : String
  role : String
  status : String
  monthly_wage : ℚ
  yearly_wage : ℚ
  base_salary : ℚ
  hra : ℚ
  standard_allowance : ℚ
  performance_bonus : ℚ
  travel_allowance : ℚ
  pf_employee_percent : ℚ
  pf_employer_percent : ℚ
  tax_deductions : ℚ
deriving DecidableEq

structure LoginRequest where
  login_id : String
  password : String
deriving DecidableEq

/-- The JWT claims of `create_access_token` (minus the expiry, which the
injected signer appends). -/
structure TokenData where
  sub : String
  role : String
  must_change_password : Bool
deriving DecidableEq

structure LoginResponse where
  token : String
  role : String
  employee_id : String
  must_change_password : Bool
  name : String
deriving DecidableEq

/-- backend/server.py lines 220-239.  `verify` stands for
`verify_password` (bcrypt) and `mkToken` for `create_access_token`. -/
def login (verify : String → String → Bool) (mkToken : TokenData → String)
    (emps : List EmployeeDoc) (req : LoginRequest) :
    Except HErr LoginResponse :=
  match emps.find? (fun e => e.login_id == req.login_id) with
  | none => .error ⟨401, "Invalid login credentials"⟩
  | some employee =>
    if verify req.password employee.password then
      .ok { token := mkToken ⟨employee.employee_id, employee.role,
              employee.must_change_password⟩,
            role := employee.role,
            employee_id := employee.employee_id,
            must_change_password := employee.must_change_password,
            name := employee.first_name ++ " " ++ employee.last_name }
    else .error ⟨401, "Invalid login credentials"⟩

/- ## Employee documents and authentication (dayflow/backend/server.py) -/

structure DFEmployee where
  id : String
  login_id : String
  first_name : String
  last_name : String
  email : String
  password_hash : String
  year_of_joining : Int
  serial_number : Int
  created_at : String
  is_active : Bool
deriving DecidableEq

structure DFLogin where
  login_id : String
  password : String
deriving DecidableEq

structure DFEmployeeResponse where
  id : String
  login_id : String
  first_name : String
  last_name : String
  email : String
  year_of_joining : Int
  created_at : String
  is_active : Bool
deriving DecidableEq

structure DFAuthResponse where
  token : String
  employee : DFEmployeeResponse
deriving DecidableEq

/-- dayflow/backend/server.py lines 228-255 (`login_employee`): the
supplied identifier is upper-cased before the lookup; a missing
identifier and a wrong password both yield 401 with the same detail;
an inactive account yields 403. -/
def login_employee (verify : String → String → Bool)
    (mkToken : String → String) (emps : List DFEmployee) (input : DFLogin) :
    Except HErr DFAuthResponse :=
  match emps.find? (fun e => e.login_id == strToUpper input.login_id) with
  | none => .error ⟨401, "Invalid login credentials"⟩
  | some employee =>
    if ! verify input.password employee.password_hash then
      .error ⟨401, "Invalid login credentials"⟩
    else if ! employee.is_active then
      .error ⟨403, "Account is inactive"⟩
    else
      .ok { token := mkToken employee.id,
            employee :=
              { id := employee.id,
                login_id := employee.login_id,
                first_name := employee.first_name,
                last_name := employee.last_name,
                email := employee.email,
                year_of_joining := employee.year_of_joining,
                created_at := employee.created_at,
                is_active := employee.is_active } }

/-- A concrete employee document used by the witnesses: the record
`create_employee` writes for John Smith joining 2025-01-01 (default
secret `Dayflow@123`, hashing instantiated as the identity in the
witnesses). -/
def sampleEmp : EmployeeDoc where
  employee_id := "EMP1"
  login_id := "DFJOSM20250001"
  password := "Dayflow@123"
  must_change_password := true
  first_name := "John"
  last_name := "Smith"
  email := "john@example.com"
  mobile := none
  job_position := none
  department := none
  manager := none
  location := none
  date_of_birth := none
  address := none
  nationality := none
  personal_email := none
  gender := none
  marital_status := none
  date_of_joining := "2025-01-01"
  role := "employee"
  status := "absent"
  monthly_wage := 1000
  yearly_wage := 12000
  base_salary := 0
  hra := 0
  standard_allowance := 0
  performance_bonus := 0
  travel_allowance := 0
  pf_employee_percent := 0
  pf_employer_percent := 0
  tax_deductions := 0

/-- A concrete dayflow-variant employee used by the witnesses. -/
def sampleDF : DFEmployee where
  id := "ID1"
  login_id := "ODJOSM20250001"
  first_name := "John"
  last_name := "Smith"
  email := "john@example.com"
  password_hash := "pw1234"
  year_of_joining := 2025
  serial_number := 1
  created_at := "2025-01-01T00:00:00"
  is_active := true

/- ## Password rotation (backend/server.py, change_password) -/

/-- backend/server.py lines 241-253: look the caller up by internal id,
re-verify the old secret (401 on mismatch or missing record), then
replace the stored hash wholesale and clear the rotation flag with one
`$set`.  Returns the updated store. -/
def change_password (verify : String → String → Bool)
    (hashF : String → String) (emps : List EmployeeDoc)
    (userId oldPassword newPassword : String) :
    Except HErr (List EmployeeDoc) :=
  match emps.find? (fun e => e.employee_id == userId) with
  | none => .error ⟨401, "Invalid old password"⟩
  | some employee =>
    if verify oldPassword employee.password then
      .ok (updateFirst emps (fun e => e.employee_id == userId)
        (fun e => { e with password := hashF newPassword,
                           must_change_password := false }))
    else .error ⟨401, "Invalid old password"⟩

/- ## Profile updates (backend/server.py, update_employee / get_employee) -/

/-- The `EmployeeUpdate` request body (backend/server.py lines 143-165);
absent fields are `none`, exactly the fields Python leaves as `None`. -/
structure EmployeeUpdate where
  first_name : Option String := none
  last_name : Option String := none
  mobile : Option String := none
  address : Option String := none
  date_of_birth : Option String := none
  nationality : Option String := none
  personal_email : Option String := none
  gender : Option String := none
  marital_status : Option String := none
  job_position : Option String := none
  department : Option String := none
  manager : Option String := none
  location : Option String := none
  monthly_wage : Option ℚ := none
  base_salary : Option ℚ := none
  hra : Option ℚ := none
  standard_allowance : Option ℚ := none
  performance_bonus : Option ℚ := none
  travel_allowance : Option ℚ := none
  pf_employee_percent : Option ℚ := none
  pf_employer_percent : Option ℚ := none
  tax_deductions : Option ℚ := none
deriving DecidableEq

/-- backend/server.py line 359-360: the allow-list filter a non-admin
caller's patch passes through — only the seven personal fields survive,
everything else is dropped from the patch. -/
def restrictToAllowed (u : EmployeeUpdate) : EmployeeUpdate where
  mobile := u.mobile
  address := u.address
  date_of_birth := u.date_of_birth
  nationality := u.nationality
  personal_email := u.personal_email
  gender := u.gender
  marital_status := u.marital_status

/-- Truthiness of the `update_data` dict (line 365): at least one field
survived the `None` filter. -/
def updateHasField (u : EmployeeUpdate) : Bool :=
  u.first_name.isSome || u.last_name.isSome || u.mobile.isSome ||
  u.address.isSome || u.date_of_birth.isSome || u.nationality.isSome ||
  u.personal_email.isSome || u.gender.isSome || u.marital_status.isSome ||
  u.job_position.isSome || u.department.isSome || u.manager.isSome ||
  u.location.isSome || u.monthly_wage.isSome || u.base_salary.isSome ||
  u.hra.isSome || u.standard_allowance.isSome ||
  u.performance_bonus.isSome || u.travel_allowance.isSome ||
  u.pf_employee_percent.isSome || u.pf_employer_percent.isSome ||
  u.tax_deductions.isSome

/-- The `$set` of line 366: every present patch field overwrites the
document field; `yearly` is the recomputed `yearly_wage` the admin
branch adds to the dict (line 363). -/
def applyUpdate (u : EmployeeUpdate) (yearly : Option ℚ) (e : EmployeeDoc) :
    EmployeeDoc :=
  { e with
    first_name := u.first_name.getD e.first_name
    last_name := u.last_name.getD e.last_name
    mobile := if u.mobile.isSome then u.mobile else e.mobile
    address := if u.address.isSome then u.address else e.address
    date_of_birth :=
      if u.date_of_birth.isSome then u.date_of_birth else e.date_of_birth
    nationality :=
      if u.nationality.isSome then u.nationality else e.nationality
    personal_email :=
      if u.personal_email.isSome then u.personal_email else e.personal_email
    gender := if u.gender.isSome then u.gender else e.gender
    marital_status :=
      if u.marital_status.isSome then u.marital_status else e.marital_status
    job_position :=
      if u.job_position.isSome then u.job_position else e.job_position
    department := if u.department.isSome then u.department else e.department
    manager := if u.manager.isSome then u.manager else e.manager
    location := if u.location.isSome then u.location else e.location
    monthly_wage := u.monthly_wage.getD e.monthly_wage
    yearly_wage := yearly.getD e.yearly_wage
    base_salary := u.base_salary.getD e.base_salary
    hra := u.hra.getD e.hra
    standard_allowance := u.standard_allowance.getD e.standard_allowance
    performance_bonus := u.performance_bonus.getD e.performance_bonus
    travel_allowance := u.travel_allowance.getD e.travel_allowance
    pf_employee_percent := u.pf_employee_percent.getD e.pf_employee_percent
    pf_employer_percent := u.pf_employer_percent.getD e.pf_employer_percent
    tax_deductions := u.tax_deductions.getD e.tax_deductions }

/-- The `EmployeeResponse` view (backend/server.py lines 110-141):
compensation fields are optional and are absent when the Mongo
projection removed them. -/
structure EmployeeView where
  employee_id : String
  login_id : String
  first_name : String
  last_name : String
  email : String
  mobile : Option String
  job_position : Option String
  department : Option String
  manager : Option String
  location : Option String
  date_of_birth : Option String
  address : Option String
  nationality : Option String
  personal_email : Option String
  gender : Option String
  marital_status : Option String
  date_of_joining : String
  role : String
  status : String
  monthly_wage : Option ℚ
  yearly_wage : Option ℚ
  base_salary : Option ℚ
  hra : Option ℚ
  standard_allowance : Option ℚ
  performance_bonus : Option ℚ
  travel_allowance : Option ℚ
  pf_employee_percent : Option ℚ
  pf_employer_percent : Option ℚ
  tax_deductions : Option ℚ
deriving DecidableEq

/-- Project a document to its response view; `withComp` is false exactly
when the projection of lines 327-341 strips the compensation fields. -/
def viewOf (e : EmployeeDoc) (withComp : Bool) : EmployeeView where
  employee_id := e.employee_id
  login_id := e.login_id
  first_name := e.first_name
  last_name := e.last_name
  email := e.email
  mobile := e.mobile
  job_position := e.job_position
  department := e.department
  manager := e.manager
  location := e.location
  date_of_birth := e.date_of_birth
  address := e.address
  nationality := e.nationality
  personal_email := e.personal_email
  gender := e.gender
  marital_status := e.marital_status
  date_of_joining := e.date_of_joining
  role := e.role
  status := e.status
  monthly_wage := if withComp then some e.monthly_wage else none
  yearly_wage := if withComp then some e.yearly_wage else none
  base_salary := if withComp then some e.base_salary else none
  hra := if withComp then some e.hra else none
  standard_allowance := if withComp then some e.standard_allowance else none
  performance_bonus := if withComp then some e.performance_bonus else none
  travel_allowance := if withComp then some e.travel_allowance else none
  pf_employee_percent :=
    if withComp then some e.pf_employee_percent else none
  pf_employer_percent :=
    if withComp then some e.pf_employer_percent else none
  tax_deductions := if withComp then some e.tax_deductions else none

/-- backend/server.py lines 325-347 (`get_employee`): compensation is
visible to admin/hr callers and to the employee reading their own
record; 404 when the target is missing. -/
def get_employee (emps : List EmployeeDoc) (callerId callerRole : String)
    (employee_id : String) : Except HErr EmployeeView :=
  let withComp := (callerRole == "admin" || callerRole == "hr")
    || callerId == employee_id
  match emps.find? (fun x => x.employee_id == employee_id) with
  | none => .error ⟨404, "Employee not found"⟩
  | some e => .ok (viewOf e withComp)

/-- backend/server.py lines 349-368 (`update_employee`): a non-admin
caller may only target their own record (403 otherwise) and their patch
is silently filtered to the allow-list; an admin patch touching
`monthly_wage` also recomputes `yearly_wage`; if any field survives,
the first matching document is `$set`-patched; the response re-reads
the record through `get_employee`. -/
def update_employee (emps : List EmployeeDoc) (callerId callerRole : String)
    (employee_id : String) (update : EmployeeUpdate) :
    Except HErr (List EmployeeDoc × EmployeeView) :=
  let is_admin := callerRole == "admin" || callerRole == "hr"
  if !is_admin && callerId != employee_id then
    .error ⟨403, "Not authorized to update this profile"⟩
  else
    let ud := if !is_admin then restrictToAllowed update else update
    let yearly : Option ℚ :=
      if is_admin then ud.monthly_wage.map (fun w => w * 12) else none
    let newEmps :=
      if updateHasField ud || yearly.isSome then
        updateFirst emps (fun x => x.employee_id == employee_id)
          (applyUpdate ud yearly)
      else emps
    match get_employee newEmps callerId callerRole employee_id with
    | .error err => .error err
    | .ok view => .ok (newEmps, view)

/- ## Attendance (backend/server.py, create_attendance) -/

/-- The `AttendanceCreate` request body (lines 167-171); the check-in
and check-out timestamps are modelled as seconds (`datetime` subtraction
in the source yields seconds via `total_seconds()`). -/
structure AttendanceCreate where
  employee_id : String
  date : String
  check_in : Option Int
  check_out : Option Int
deriving DecidableEq

/-- The attendance document of lines 405-415. -/
structure AttendanceDoc where
  attendance_id : String
  employee_id : String
  employee_name : String
  date : String
  check_in : Option Int
  check_out : Option Int
  work_hours : ℚ
  extra_hours : ℚ
  created_at : String
deriving DecidableEq

/-- Nearest integer with ties to even — the rounding of Python's
built-in `round`. -/
def nearestEven (y : ℚ) : ℤ :=
  if y - ⌊y⌋ < 1 / 2 then ⌊y⌋
  else if 1 / 2 < y - (⌊y⌋ : ℚ) then ⌊y⌋ + 1
  else if ⌊y⌋ % 2 = 0 then ⌊y⌋ else ⌊y⌋ + 1

/-- Python `round(x, 2)`. -/
def round2 (x : ℚ) : ℚ := (nearestEven (x * 100) : ℚ) / 100

/-- backend/server.py lines 387-421: when both timestamps are present,
elapsed hours are capped at 9 for `work_hours` and the excess over 9
goes to `extra_hours`, both rounded to two decimals; the employee (who
must exist, else 404) is marked present.  The wall-clock derived
`attendance_id` and `created_at` are injected. -/
def create_attendance (emps : List EmployeeDoc) (att : AttendanceCreate)
    (attId createdAt : String) :
    Except HErr (AttendanceDoc × List EmployeeDoc) :=
  match emps.find? (fun x => x.employee_id == att.employee_id) with
  | none => .error ⟨404, "Employee not found"⟩
  | some employee =>
    let hoursPair : ℚ × ℚ :=
      match att.check_in, att.check_out with
      | some cin, some cout =>
        let hours : ℚ := ((cout - cin : Int) : ℚ) / 3600
        (round2 (min hours 9), round2 (max 0 (hours - 9)))
      | _, _ => (0, 0)
    let doc : AttendanceDoc :=
      { attendance_id := attId
        employee_id := att.employee_id
        employee_name := employee.first_name ++ " " ++ employee.last_name
        date := att.date
        check_in := att.check_in
        check_out := att.check_out
        work_hours := hoursPair.1
        extra_hours := hoursPair.2
        created_at := createdAt }
    .ok (doc, updateFirst emps (fun x => x.employee_id == att.employee_id)
      (fun x => { x with status := "present" }))

/- ## Leave status transitions (backend/server.py, update_leave_status) -/

/-- The leave document of lines 449-460. -/
structure LeaveDoc where
  leave_id : String
  employee_id : String
  employee_name : String
  leave_type : String
  start_date : String
  end_date : String
  allocation : Int
  status : String
  attachment : Option String
  created_at : String
deriving DecidableEq

/-- backend/server.py lines 477-489: `update_one` sets the requested
status on the first matching leave; existence is judged by
`modified_count` (zero both when no document matches and when the
matched document already carries the requested status); on transition
to `approved` the referenced employee is marked on-leave. -/
def update_leave_status (leaves : List LeaveDoc) (emps : List EmployeeDoc)
    (leave_id newStatus : String) :
    Except HErr (List LeaveDoc × List EmployeeDoc) :=
  let newLeaves := updateFirst leaves (fun l => l.leave_id == leave_id)
    (fun l => { l with status := newStatus })
  let modified : Nat :=
    match leaves.find? (fun l => l.leave_id == leave_id) with
    | some l => if l.status == newStatus then 0 else 1
    | none => 0
  if modified == 0 then .error ⟨404, "Leave request not found"⟩
  else
    match newLeaves.find? (fun l => l.leave_id == leave_id) with
    | some leave =>
      if newStatus == "approved" then
        .ok (newLeaves, updateFirst emps
          (fun x => x.employee_id == leave.employee_id)
          (fun x => { x with status := "leave" }))
      else .ok (newLeaves, emps)
    | none => .ok (newLeaves, emps)

/-- A concrete approved leave request used by the witnesses. -/
def sampleLeave : LeaveDoc where
  leave_id := "LV1"
  employee_id := "EMP1"
  employee_name := "John Smith"
  leave_type := "paid_time_off"
  start_date := "2025-02-01"
  end_date := "2025-02-03"
  allocation := 3
  status := "approved"
  attachment := none
  created_at := "2025-01-15T00:00:00"

/- ## Digit-length lemmas -/

lemma natDigitsGo_length_le :
    ∀ (fuel k n : Nat) (acc : List Char), n < 10 ^ (k + 1) →
      (natDigitsGo fuel n acc).length ≤ (k + 1) + acc.length := by
  intro fuel
  induction fuel with
  | zero =>
    intro k n acc _
    simp [natDigitsGo]
  | succ fuel ih =>
    intro k n acc h
    by_cases h10 : n < 10
    · simp [natDigitsGo, h10]
      omega
    · simp only [natDigitsGo, if_neg h10]
      cases k with
      | zero =>
        exact absurd (by simpa using h) h10
      | succ k =>
        have hdiv : n / 10 < 10 ^ (k + 1) := by
          apply Nat.div_lt_of_lt_mul
          calc n < 10 ^ (k + 1 + 1) := h
            _ = 10 * 10 ^ (k + 1) := by ring
        have := ih k (n / 10) (digitChar (n % 10) :: acc) hdiv
        simp at this ⊢
        omega

lemma natDigits_length_le {n k : Nat} (h : n < 10 ^ (k + 1)) :
    (natDigits n).length ≤ k + 1 := by
  have := natDigitsGo_length_le (n + 1) k n [] h
  simpa [natDigits] using this

lemma zfill_length {w : Nat} {s : List Char} (h : s.length ≤ w) :
    (zfill w s).length = w := by
  simp [zfill]
  omega

/- ## C1, C2, C3 -/

/-- C1: the claim states that N concurrent issuance calls for one year
produce N distinct serials because the counter update is one atomic
increment-and-fetch.  The code instead reads the counter with `find_one`
and writes the serial back with a separate `$set`: under the interleaving
read₁, read₂, write₁, write₂ from an absent counter, both calls compute
serial 1 and issue duplicate identifiers, while the sequential schedule
yields the distinct serials 1 and 2.  This is the read-then-write race
the spec itself names as the principal bug. -/
theorem issue_race_duplicate_serials :
    ((runIssue initIssue [.read1, .read2, .write1, .write2]).serial1 = some 1 ∧
     (runIssue initIssue [.read1, .read2, .write1, .write2]).serial2 = some 1) ∧
    ((runIssue initIssue [.read1, .write1, .read2, .write2]).serial1 = some 1 ∧
     (runIssue initIssue [.read1, .write1, .read2, .write2]).serial2 = some 2) := by
  decide

/-- C2: for a first name and last name of at least two characters, a
four-digit year, and a serial that fits in four digits, the issued
identifier is exactly the two-letter organization code, the first two
letters of the first name upper-cased, the first two letters of the last
name upper-cased, the four-digit year, and the serial zero-padded to
four digits — 14 characters in total. -/
theorem generate_login_id_format (first last year : List Char) (count : Nat)
    (hf : 2 ≤ first.length) (hl : 2 ≤ last.length) (hy : year.length = 4)
    (hs : count + 1 ≤ 9999) :
    generate_login_id first last year count =
      companyCode ++ (first.map Char.toUpper).take 2
        ++ (last.map Char.toUpper).take 2
        ++ year ++ zfill 4 (natDigits (count + 1)) ∧
    companyCode.length = 2 ∧
    ((first.map Char.toUpper).take 2).length = 2 ∧
    ((last.map Char.toUpper).take 2).length = 2 ∧
    (zfill 4 (natDigits (count + 1))).length = 4 ∧
    (generate_login_id first last year count).length = 14 := by
  have hserial : (natDigits (count + 1)).length ≤ 4 := by
    have h4 : count + 1 < 10 ^ (3 + 1) := by norm_num; omega
    exact natDigits_length_le h4
  have hz : (zfill 4 (natDigits (count + 1))).length = 4 := zfill_length hserial
  refine ⟨?_, rfl, ?_, ?_, hz, ?_⟩
  · simp [generate_login_id, List.map_take]
  · simp [List.length_take, List.length_map]
    omega
  · simp [List.length_take, List.length_map]
    omega
  · simp [generate_login_id, companyCode, List.length_append, hz,
      List.length_take, List.length_map, hy]
    omega

/-- Concrete instance of `generate_login_id_format`: John Smith joining
in 2025 as the first employee of that year receives `DFJOSM20250001`. -/
theorem generate_login_id_format_witness :
    (2 ≤ (['J', 'o', 'h', 'n'] : List Char).length ∧
     2 ≤ (['S', 'm', 'i', 't', 'h'] : List Char).length ∧
     (['2', '0', '2', '5'] : List Char).length = 4 ∧ 0 + 1 ≤ 9999) ∧
    (generate_login_id ['J', 'o', 'h', 'n'] ['S', 'm', 'i', 't', 'h']
        ['2', '0', '2', '5'] 0).length = 14 ∧
    generate_login_id ['J', 'o', 'h', 'n'] ['S', 'm', 'i', 't', 'h']
        ['2', '0', '2', '5'] 0 =
      ['D', 'F', 'J', 'O', 'S', 'M', '2', '0', '2', '5', '0', '0', '0', '1'] :=
  ⟨⟨by decide, by decide, by decide, by decide⟩,
   (generate_login_id_format ['J', 'o', 'h', 'n'] ['S', 'm', 'i', 't', 'h']
      ['2', '0', '2', '5'] 0 (by decide) (by decide) (by decide)
      (by decide)).2.2.2.2.2,
   by decide⟩

/-- C3: the claim states that issuance fails fast when a name is shorter
than two characters.  The code has no such check: Python's slice
`first_name[:2]` silently keeps the single letter, and the call returns
a 13-character identifier built from one letter of the first name
instead of reporting an error. -/
theorem short_name_silently_truncated :
    generate_login_id ['A'] ['S', 'm', 'i', 't', 'h'] ['2', '0', '2', '5'] 0 =
      ['D', 'F', 'A', 'S', 'M', '2', '0', '2', '5', '0', '0', '0', '1'] ∧
    (generate_login_id ['A'] ['S', 'm', 'i', 't', 'h'] ['2', '0', '2', '5']
        0).length = 13 := by
  decide

lemma updateFirst_find_two {α : Type} (pe pl : α → Bool) (f : α → α) (e : α)
    (hfe : pl (f e) = true) :
    ∀ l : List α, l.find? pe = some e →
      (∀ x ∈ l, pl x = true → pe x = true) →
      (updateFirst l pe f).find? pl = some (f e) := by
  intro l
  induction l with
  | nil =>
    intro h _
    simp at h
  | cons x xs ih =>
    intro hfind hcl
    by_cases hx : pe x = true
    · rw [List.find?_cons_of_pos _ hx] at hfind
      injection hfind with hxe
      subst hxe
      simp [updateFirst, hx, List.find?_cons_of_pos _ hfe]
    · rw [List.find?_cons_of_neg _ (by simpa using hx)] at hfind
      have hplx : ¬ pl x = true := by
        intro hpl
        exact hx (hcl x (List.mem_cons_self x xs) hpl)
      simp only [updateFirst, if_neg hx]
      rw [List.find?_cons_of_neg _ (by simpa using hplx)]
      exact ih hfind (fun y hy hpy => hcl y (List.mem_cons_of_mem x hy) hpy)

lemma find?_sat {α : Type} (p : α → Bool) (e : α) :
    ∀ l : List α, l.find? p = some e → p e = true := by
  intro l
  induction l with
  | nil =>
    intro h
    simp at h
  | cons x xs ih =>
    intro h
    by_cases hx : p x = true
    · rw [List.find?_cons_of_pos _ hx] at h
      injection h with hxe
      exact hxe ▸ hx
    · rw [List.find?_cons_of_neg _ (by simpa using hx)] at h
      exact ih h

/- ## C4, C5 -/

/-- C4: in both application variants, a login with an unknown identifier
and a login with a known identifier but wrong secret fail with the same
error kind and the same user-visible message — HTTP 401,
"Invalid login credentials" — so the two causes are indistinguishable
to the caller. -/
theorem login_uniform_failure (verify : String → String → Bool)
    (mkToken : TokenData → String) (mkToken2 : String → String)
    (emps : List EmployeeDoc) (demps : List DFEmployee)
    (r1 r2 : LoginRequest) (d1 d2 : DFLogin) (e : EmployeeDoc)
    (de : DFEmployee)
    (h1 : emps.find? (fun x => x.login_id == r1.login_id) = none)
    (h2 : emps.find? (fun x => x.login_id == r2.login_id) = some e)
    (h3 : verify r2.password e.password = false)
    (h4 : demps.find? (fun x => x.login_id == strToUpper d1.login_id) = none)
    (h5 : demps.find? (fun x => x.login_id == strToUpper d2.login_id) = some de)
    (h6 : verify d2.password de.password_hash = false) :
    login verify mkToken emps r1 = .error ⟨401, "Invalid login credentials"⟩ ∧
    login verify mkToken emps r2 = .error ⟨401, "Invalid login credentials"⟩ ∧
    login_employee verify mkToken2 demps d1 =
      .error ⟨401, "Invalid login credentials"⟩ ∧
    login_employee verify mkToken2 demps d2 =
      .error ⟨401, "Invalid login credentials"⟩ := by
  refine ⟨?_, ?_, ?_, ?_⟩
  · simp [login, h1]
  · simp [login, h2, h3]
  · simp [login_employee, h4]
  · simp [login_employee, h5, h6]

/-- Concrete instance of `login_uniform_failure`: a store holding one
employee, one request with an unknown identifier and one with the right
identifier but wrong secret, in each variant. -/
theorem login_uniform_failure_witness :
    ([sampleEmp].find? (fun x => x.login_id == "NOPE") = none ∧
     [sampleEmp].find? (fun x => x.login_id == "DFJOSM20250001") = some sampleEmp ∧
     [sampleDF].find? (fun x => x.login_id == strToUpper "NOPE") = none ∧
     [sampleDF].find? (fun x => x.login_id == strToUpper "ODJOSM20250001") = some sampleDF) ∧
    (login (fun p h => decide (p = h)) (fun _ => "tok") [sampleEmp]
        ⟨"NOPE", "Dayflow@123"⟩ = .error ⟨401, "Invalid login credentials"⟩ ∧
     login (fun p h => decide (p = h)) (fun _ => "tok") [sampleEmp]
        ⟨"DFJOSM20250001", "wrong"⟩ = .error ⟨401, "Invalid login credentials"⟩ ∧
     login_employee (fun p h => decide (p = h)) (fun _ => "tok") [sampleDF]
        ⟨"NOPE", "pw1234"⟩ = .error ⟨401, "Invalid login credentials"⟩ ∧
     login_employee (fun p h => decide (p = h)) (fun _ => "tok") [sampleDF]
        ⟨"ODJOSM20250001", "wrong"⟩ = .error ⟨401, "Invalid login credentials"⟩) :=
  ⟨⟨by decide, by decide, by decide, by decide⟩, by
    have h := login_uniform_failure (fun p h => decide (p = h))
      (fun _ => "tok") (fun _ => "tok") [sampleEmp] [sampleDF]
      ⟨"NOPE", "Dayflow@123"⟩ ⟨"DFJOSM20250001", "wrong"⟩
      ⟨"NOPE", "pw1234"⟩ ⟨"ODJOSM20250001", "wrong"⟩ sampleEmp sampleDF
      (by decide) (by decide) (by decide) (by decide) (by decide) (by decide)
    exact ⟨h.1, h.2.1, h.2.2.1, h.2.2.2⟩⟩

/-- C5 as stated is false of backend/server.py: `login` looks the
identifier up verbatim (line 222 has no case normalization), so a
supplied identifier differing from the stored one only in letter case
fails with 401 even though the secret is correct. -/
theorem login_case_sensitive_cex :
    login (fun p h => decide (p = h)) (fun _ => "tok") [sampleEmp]
        ⟨"dfjosm20250001", "Dayflow@123"⟩ =
      .error ⟨401, "Invalid login credentials"⟩ ∧
    strToUpper "dfjosm20250001" = strToUpper sampleEmp.login_id ∧
    "dfjosm20250001" ≠ sampleEmp.login_id ∧
    "Dayflow@123" = sampleEmp.password := by
  refine ⟨rfl, by decide, by decide, rfl⟩

/-- C5 amended: the dayflow variant's `login_employee` upper-cases the
supplied identifier before the lookup, so when the stored identifier is
upper-case-normal (as every generated identifier is) and the supplied
one differs from it only in letter case, the lookup finds that employee
and a correct secret succeeds; the backend variant's `login` performs an
exact-match lookup with no case normalization. -/
theorem login_employee_case_insensitive (verify : String → String → Bool)
    (mkToken : String → String) (emps : List DFEmployee) (e : DFEmployee)
    (supplied password : String)
    (hnorm : strToUpper e.login_id = e.login_id)
    (hcase : strToUpper supplied = strToUpper e.login_id)
    (hfind : emps.find? (fun x => x.login_id == e.login_id) = some e)
    (hver : verify password e.password_hash = true)
    (hact : e.is_active = true) :
    login_employee verify mkToken emps ⟨supplied, password⟩ =
      .ok { token := mkToken e.id,
            employee :=
              { id := e.id,
                login_id := e.login_id,
                first_name := e.first_name,
                last_name := e.last_name,
                email := e.email,
                year_of_joining := e.year_of_joining,
                created_at := e.created_at,
                is_active := e.is_active } } := by
  have hsup : strToUpper supplied = e.login_id := hcase.trans hnorm
  simp [login_employee, hsup, hfind, hver, hact]

/-- Concrete instance of `login_employee_case_insensitive`: the stored
identifier `ODJOSM20250001`, supplied in lower case with the correct
secret, logs in. -/
theorem login_employee_case_insensitive_witness :
    (strToUpper sampleDF.login_id = sampleDF.login_id ∧
     strToUpper "odjosm20250001" = strToUpper sampleDF.login_id ∧
     [sampleDF].find? (fun x => x.login_id == sampleDF.login_id) = some sampleDF) ∧
    login_employee (fun p h => decide (p = h)) (fun _ => "tok") [sampleDF]
        ⟨"odjosm20250001", "pw1234"⟩ =
      .ok { token := "tok",
            employee :=
              { id := sampleDF.id,
                login_id := sampleDF.login_id,
                first_name := sampleDF.first_name,
                last_name := sampleDF.last_name,
                email := sampleDF.email,
                year_of_joining := sampleDF.year_of_joining,
                created_at := sampleDF.created_at,
                is_active := sampleDF.is_active } } :=
  ⟨⟨by decide, by decide, by decide⟩,
   login_employee_case_insensitive (fun p h => decide (p = h)) (fun _ => "tok")
     [sampleDF] sampleDF "odjosm20250001" "pw1234" (by decide) (by decide)
     (by decide) (by decide) (by decide)⟩

/- ## C6 -/

/-- C6: `change_password` first re-verifies the old secret against the
stored credential and fails with 401 when it does not verify; on
success the credential is replaced wholesale by the hash of the new
secret and the must-rotate flag is cleared, after which logging in with
the old secret fails with 401.  `hvault` says the injected verifier
accepts exactly the hashed secret; `huniq` says no other stored record
shadows this employee's login identifier. -/
theorem change_password_correct (verify : String → String → Bool)
    (hashF : String → String) (mkToken : TokenData → String)
    (emps : List EmployeeDoc) (userId oldPassword newPassword : String)
    (e : EmployeeDoc)
    (hfind : emps.find? (fun x => x.employee_id == userId) = some e)
    (hvault : ∀ p q, verify p (hashF q) = decide (p = q))
    (huniq : ∀ x ∈ emps, x.login_id = e.login_id → x.employee_id = userId) :
    (verify oldPassword e.password = false →
      change_password verify hashF emps userId oldPassword newPassword =
        .error ⟨401, "Invalid old password"⟩) ∧
    (verify oldPassword e.password = true → oldPassword ≠ newPassword →
      ∃ newEmps,
        change_password verify hashF emps userId oldPassword newPassword =
          .ok newEmps ∧
        newEmps.find? (fun x => x.login_id == e.login_id) =
          some { e with password := hashF newPassword,
                        must_change_password := false } ∧
        login verify mkToken newEmps ⟨e.login_id, oldPassword⟩ =
          .error ⟨401, "Invalid login credentials"⟩) := by
  constructor
  · intro hver
    simp [change_password, hfind, hver]
  · intro hver hne
    have hafter :
        (updateFirst emps (fun x => x.employee_id == userId)
            (fun x => { x with password := hashF newPassword,
                               must_change_password := false })).find?
          (fun x => x.login_id == e.login_id) =
        some { e with password := hashF newPassword,
                      must_change_password := false } := by
      apply updateFirst_find_two _ _ _ _ (by simp) _ hfind
      intro x hx hl
      have hxl : x.login_id = e.login_id := by simpa using hl
      simpa using huniq x hx hxl
    refine ⟨_, ?_, hafter, ?_⟩
    · simp [change_password, hfind, hver]
    · simp [login, hafter, hvault, hne]

/-- Concrete instance of `change_password_correct`: John Smith rotates
the default secret `Dayflow@123` to `NewSecret1`; afterwards the stored
record carries the new hash with the flag cleared and the old secret no
longer logs in. -/
theorem change_password_correct_witness :
    ([sampleEmp].find? (fun x => x.employee_id == "EMP1") = some sampleEmp ∧
     decide (("Dayflow@123" : String) = sampleEmp.password) = true ∧
     ("Dayflow@123" : String) ≠ "NewSecret1") ∧
    (∃ newEmps,
      change_password (fun p h => decide (p = h)) (fun s => s) [sampleEmp]
          "EMP1" "Dayflow@123" "NewSecret1" = .ok newEmps ∧
      newEmps.find? (fun x => x.login_id == sampleEmp.login_id) =
        some { sampleEmp with password := "NewSecret1",
                              must_change_password := false } ∧
      login (fun p h => decide (p = h)) (fun _ => "tok") newEmps
          ⟨sampleEmp.login_id, "Dayflow@123"⟩ =
        .error ⟨401, "Invalid login credentials"⟩) :=
  ⟨⟨by decide, by decide, by decide⟩,
   (change_password_correct (fun p h => decide (p = h)) (fun s => s)
      (fun _ => "tok") [sampleEmp] "EMP1" "Dayflow@123" "NewSecret1" sampleEmp
      (by decide) (fun _ _ => rfl) (by decide)).2 (by decide) (by decide)⟩

/- ## C7 -/

/-- C7 as stated is false of backend/server.py: a self-service caller
patching their own `monthly_wage` is not rejected with 403 — lines
358-360 silently drop the field from the patch and the request succeeds
(here with an empty surviving patch, so the store is untouched and the
returned view still shows the old wage). -/
theorem update_employee_not_rejected_cex :
    update_employee [sampleEmp] "EMP1" "employee" "EMP1"
        { monthly_wage := some 5000 } =
      .ok ([sampleEmp], viewOf sampleEmp true) ∧
    (viewOf sampleEmp true).monthly_wage = some 1000 ∧
    sampleEmp.role = "employee" ∧ sampleEmp.employee_id = "EMP1" := by
  refine ⟨rfl, by decide, by decide, by decide⟩

/-- C7 amended: a self-service caller's update of their own record that
includes a compensation field is not rejected — the field is silently
dropped, the request succeeds, and the stored compensation and role are
unchanged; the same patch from a privileged caller succeeds and is
applied, recomputing `yearly_wage = monthly_wage * 12`; a self-service
update that targets another employee's record is rejected with 403. -/
theorem update_employee_comp_policy (emps : List EmployeeDoc)
    (e : EmployeeDoc) (targetId : String) (u : EmployeeUpdate) (w : ℚ)
    (hfind : emps.find? (fun x => x.employee_id == targetId) = some e)
    (hw : u.monthly_wage = some w) :
    (∀ callerRole, (callerRole == "admin" || callerRole == "hr") = false →
      ∃ newEmps view e',
        update_employee emps targetId callerRole targetId u =
          .ok (newEmps, view) ∧
        newEmps.find? (fun x => x.employee_id == targetId) = some e' ∧
        e'.monthly_wage = e.monthly_wage ∧ e'.yearly_wage = e.yearly_wage ∧
        e'.role = e.role) ∧
    (∀ callerId callerRole,
      (callerRole == "admin" || callerRole == "hr") = true →
      ∃ newEmps view e',
        update_employee emps callerId callerRole targetId u =
          .ok (newEmps, view) ∧
        newEmps.find? (fun x => x.employee_id == targetId) = some e' ∧
        e'.monthly_wage = w ∧ e'.yearly_wage = w * 12) ∧
    (∀ callerId callerRole,
      (callerRole == "admin" || callerRole == "hr") = false →
      callerId ≠ targetId →
      update_employee emps callerId callerRole targetId u =
        .error ⟨403, "Not authorized to update this profile"⟩) := by
  have hpe : (e.employee_id == targetId) = true :=
    find?_sat (fun x => x.employee_id == targetId) e emps hfind
  refine ⟨?_, ?_, ?_⟩
  · intro callerRole hrole
    by_cases hcond : updateHasField (restrictToAllowed u) = true
    · have hafter :
          (updateFirst emps (fun x => x.employee_id == targetId)
              (applyUpdate (restrictToAllowed u) none)).find?
            (fun x => x.employee_id == targetId) =
          some (applyUpdate (restrictToAllowed u) none e) := by
        apply updateFirst_find_two _ _ _ _ _ _ hfind (fun y _ hy => hy)
        simpa [applyUpdate] using hpe
      refine ⟨updateFirst emps (fun x => x.employee_id == targetId)
          (applyUpdate (restrictToAllowed u) none),
        viewOf (applyUpdate (restrictToAllowed u) none e) true,
        applyUpdate (restrictToAllowed u) none e, ?_, hafter, ?_, ?_, ?_⟩
      · simp [update_employee, hrole, get_employee, hcond, hafter]
      · simp [applyUpdate, restrictToAllowed]
      · simp [applyUpdate]
      · simp [applyUpdate]
    · have hcond' : updateHasField (restrictToAllowed u) = false := by
        simpa using hcond
      refine ⟨emps, viewOf e true, e, ?_, hfind, rfl, rfl, rfl⟩
      simp [update_employee, hrole, get_employee, hcond', hfind]
  · intro callerId callerRole hrole
    have hcond : updateHasField u = true := by
      simp [updateHasField, hw]
    have hafter :
        (updateFirst emps (fun x => x.employee_id == targetId)
            (applyUpdate u (u.monthly_wage.map (fun w => w * 12)))).find?
          (fun x => x.employee_id == targetId) =
        some (applyUpdate u (u.monthly_wage.map (fun w => w * 12)) e) := by
      apply updateFirst_find_two _ _ _ _ _ _ hfind (fun y _ hy => hy)
      simpa [applyUpdate] using hpe
    refine ⟨updateFirst emps (fun x => x.employee_id == targetId)
        (applyUpdate u (u.monthly_wage.map (fun w => w * 12))),
      viewOf (applyUpdate u (u.monthly_wage.map (fun w => w * 12)) e) true,
      applyUpdate u (u.monthly_wage.map (fun w => w * 12)) e,
      ?_, hafter, ?_, ?_⟩
    · simp [update_employee, hrole, get_employee, hcond, hafter]
    · simp [applyUpdate, hw]
    · simp [applyUpdate, hw]
  · intro callerId callerRole hrole hne
    simp [update_employee, hrole, hne]

/-- Concrete instance of `update_employee_comp_policy` at John Smith's
record with a patch setting `monthly_wage := 5000`. -/
theorem update_employee_comp_policy_witness :
    [sampleEmp].find? (fun x => x.employee_id == "EMP1") = some sampleEmp ∧
    (({ monthly_wage := some 5000 } : EmployeeUpdate).monthly_wage =
      some 5000) ∧
    ((∀ callerRole, (callerRole == "admin" || callerRole == "hr") = false →
      ∃ newEmps view e',
        update_employee [sampleEmp] "EMP1" callerRole "EMP1"
            { monthly_wage := some 5000 } = .ok (newEmps, view) ∧
        newEmps.find? (fun x => x.employee_id == "EMP1") = some e' ∧
        e'.monthly_wage = sampleEmp.monthly_wage ∧
        e'.yearly_wage = sampleEmp.yearly_wage ∧ e'.role = sampleEmp.role) ∧
    (∀ callerId callerRole,
      (callerRole == "admin" || callerRole == "hr") = true →
      ∃ newEmps view e',
        update_employee [sampleEmp] callerId callerRole "EMP1"
            { monthly_wage := some 5000 } = .ok (newEmps, view) ∧
        newEmps.find? (fun x => x.employee_id == "EMP1") = some e' ∧
        e'.monthly_wage = 5000 ∧ e'.yearly_wage = 5000 * 12) ∧
    (∀ callerId callerRole,
      (callerRole == "admin" || callerRole == "hr") = false →
      callerId ≠ "EMP1" →
      update_employee [sampleEmp] callerId callerRole "EMP1"
          { monthly_wage := some 5000 } =
        .error ⟨403, "Not authorized to update this profile"⟩)) :=
  ⟨by decide, rfl,
   update_employee_comp_policy [sampleEmp] sampleEmp "EMP1"
     { monthly_wage := some 5000 } 5000 (by decide) rfl⟩

/- ## Rounding lemmas -/

lemma nearestEven_intCast (n : ℤ) : nearestEven (n : ℚ) = n := by
  simp [nearestEven]

lemma round2_intCast (n : ℤ) : round2 (n : ℚ) = n := by
  have h : ((n : ℚ) * 100) = ((n * 100 : ℤ) : ℚ) := by push_cast; ring
  rw [round2, h, nearestEven_intCast]
  push_cast
  ring

lemma round2_nonneg {x : ℚ} (hx : 0 ≤ x) : 0 ≤ round2 x := by
  have hy : (0 : ℚ) ≤ x * 100 := by positivity
  have hfl : 0 ≤ ⌊x * 100⌋ := Int.floor_nonneg.mpr hy
  have hne : 0 ≤ nearestEven (x * 100) := by
    unfold nearestEven
    split_ifs <;> omega
  have : (0 : ℚ) ≤ (nearestEven (x * 100) : ℚ) := by exact_mod_cast hne
  unfold round2
  positivity

/- ## C8 -/

/-- C8 as stated is false of backend/server.py: `work_hours` is
`min(elapsed, 9)` with no lower bound, so a record whose check-out
(09:00) precedes its check-in (19:00) is created with worked hours
`-10`, violating the claimed non-negativity. -/
theorem create_attendance_negative_hours_cex :
    (create_attendance [sampleEmp]
        { employee_id := "EMP1", date := "2025-01-02",
          check_in := some 68400, check_out := some 32400 }
        "ATT1" "T0").map (fun r => r.1.work_hours) = .ok (-10) ∧
    ((-10 : ℚ) < 0) := by
  constructor
  · have hf : [sampleEmp].find? (fun x => x.employee_id == "EMP1") =
        some sampleEmp := rfl
    have hhours : ((32400 - 68400 : Int) : ℚ) / 3600 = -10 := by norm_num
    have hmin : min (((32400 - 68400 : Int) : ℚ) / 3600) 9 = -10 := by
      rw [hhours]
      exact min_eq_left (by norm_num)
    have hr : round2 (min (((32400 - 68400 : Int) : ℚ) / 3600) 9) = -10 := by
      rw [hmin]
      have := round2_intCast (-10)
      push_cast at this
      exact this
    simp only [create_attendance, hf, Except.map]
    norm_num at hr ⊢
    exact hr
  · norm_num

/-- C8 amended: with both timestamps present, `work_hours` is the
elapsed hours capped at 9 and `extra_hours` the excess over 9 (zero
otherwise), both rounded to two decimal places; `extra_hours` is always
non-negative, and `work_hours` is non-negative provided check-out is
not earlier than check-in (it is negative when the timestamps are
reversed, which the code does not reject). -/
theorem create_attendance_hours (emps : List EmployeeDoc)
    (att : AttendanceCreate) (e : EmployeeDoc) (cin cout : Int)
    (attId createdAt : String)
    (hfind : emps.find? (fun x => x.employee_id == att.employee_id) = some e)
    (hin : att.check_in = some cin) (hout : att.check_out = some cout) :
    ∃ doc newEmps,
      create_attendance emps att attId createdAt = .ok (doc, newEmps) ∧
      doc.work_hours = round2 (min (((cout - cin : Int) : ℚ) / 3600) 9) ∧
      doc.extra_hours =
        round2 (max 0 ((((cout - cin : Int) : ℚ) / 3600) - 9)) ∧
      0 ≤ doc.extra_hours ∧
      (cin ≤ cout → 0 ≤ doc.work_hours) := by
  refine ⟨{ attendance_id := attId
            employee_id := att.employee_id
            employee_name := e.first_name ++ " " ++ e.last_name
            date := att.date
            check_in := att.check_in
            check_out := att.check_out
            work_hours := round2 (min (((cout - cin : Int) : ℚ) / 3600) 9)
            extra_hours :=
              round2 (max 0 ((((cout - cin : Int) : ℚ) / 3600) - 9))
            created_at := createdAt },
    updateFirst emps (fun x => x.employee_id == att.employee_id)
      (fun x => { x with status := "present" }), ?_, rfl, rfl, ?_, ?_⟩
  · simp [create_attendance, hfind, hin, hout]
  · exact round2_nonneg (le_max_left 0 _)
  · intro hle
    apply round2_nonneg
    have h0 : (0 : ℚ) ≤ ((cout - cin : Int) : ℚ) / 3600 := by
      apply div_nonneg _ (by norm_num)
      have : (0 : ℤ) ≤ cout - cin := by omega
      exact_mod_cast this
    exact le_min h0 (by norm_num)

/-- Concrete instances of `create_attendance_hours`: check-in 09:00
(32400 s) and check-out 19:00 (68400 s) yield worked 9.00 and overtime
1.00; check-in 09:00 and check-out 17:00 (61200 s) yield worked 8.00
and overtime 0.00. -/
theorem create_attendance_hours_witness :
    ([sampleEmp].find? (fun x => x.employee_id == "EMP1") = some sampleEmp) ∧
    (∃ doc newEmps,
      create_attendance [sampleEmp]
          { employee_id := "EMP1", date := "2025-01-02",
            check_in := some 32400, check_out := some 68400 }
          "ATT1" "T0" = .ok (doc, newEmps) ∧
      doc.work_hours = round2 (min (((68400 - 32400 : Int) : ℚ) / 3600) 9) ∧
      doc.extra_hours =
        round2 (max 0 ((((68400 - 32400 : Int) : ℚ) / 3600) - 9)) ∧
      0 ≤ doc.extra_hours ∧
      ((32400 : Int) ≤ 68400 → 0 ≤ doc.work_hours)) ∧
    round2 (min (((68400 - 32400 : Int) : ℚ) / 3600) 9) = 9 ∧
    round2 (max 0 ((((68400 - 32400 : Int) : ℚ) / 3600) - 9)) = 1 ∧
    round2 (min (((61200 - 32400 : Int) : ℚ) / 3600) 9) = 8 ∧
    round2 (max 0 ((((61200 - 32400 : Int) : ℚ) / 3600) - 9)) = 0 := by
  refine ⟨rfl, ?_, ?_, ?_, ?_, ?_⟩
  · exact create_attendance_hours [sampleEmp]
      { employee_id := "EMP1", date := "2025-01-02",
        check_in := some 32400, check_out := some 68400 }
      sampleEmp 32400 68400 "ATT1" "T0" rfl rfl rfl
  · have h : ((68400 - 32400 : Int) : ℚ) / 3600 = 10 := by norm_num
    rw [h, min_eq_right (by norm_num)]
    have := round2_intCast 9
    push_cast at this
    exact this
  · have h : ((68400 - 32400 : Int) : ℚ) / 3600 = 10 := by norm_num
    rw [h, show (10 : ℚ) - 9 = 1 by norm_num,
      max_eq_right (by norm_num : (0 : ℚ) ≤ 1)]
    have := round2_intCast 1
    push_cast at this
    exact this
  · have h : ((61200 - 32400 : Int) : ℚ) / 3600 = 8 := by norm_num
    rw [h, min_eq_left (by norm_num)]
    have := round2_intCast 8
    push_cast at this
    exact this
  · have h : ((61200 - 32400 : Int) : ℚ) / 3600 = 8 := by norm_num
    rw [h, show (8 : ℚ) - 9 = -1 by norm_num,
      max_eq_left (by norm_num : (-1 : ℚ) ≤ 0)]
    have := round2_intCast 0
    push_cast at this
    exact this

/- ## C9, C10 -/

/-- C9 as stated is false of backend/server.py: `update_leave_status`
sets whatever status string is supplied without inspecting the current
one, so a request that already left the pending state (here: approved)
is changed again to rejected — the transition is reversed. -/
theorem leave_status_reversed_cex :
    sampleLeave.status = "approved" ∧
    update_leave_status [sampleLeave] [sampleEmp] "LV1" "rejected" =
      .ok ([{ sampleLeave with status := "rejected" }], [sampleEmp]) := by
  exact ⟨rfl, rfl⟩

/-- C9 amended: `update_leave_status` performs no transition check — for
any existing request it overwrites the status with the supplied string
whenever that string differs from the current one (so pending→approved
and pending→rejected work, but so do reversals such as
approved→rejected); only a same-status call is refused (with 404,
see `leave_status_same_notfound`). -/
theorem update_leave_status_unrestricted (leaves : List LeaveDoc)
    (emps : List EmployeeDoc) (lid newStatus : String) (l : LeaveDoc)
    (hfind : leaves.find? (fun x => x.leave_id == lid) = some l)
    (hne : l.status ≠ newStatus) :
    ∃ newLeaves newEmps,
      update_leave_status leaves emps lid newStatus =
        .ok (newLeaves, newEmps) ∧
      newLeaves.find? (fun x => x.leave_id == lid) =
        some { l with status := newStatus } := by
  have hpl : (l.leave_id == lid) = true :=
    find?_sat (fun x => x.leave_id == lid) l leaves hfind
  have hafter :
      (updateFirst leaves (fun x => x.leave_id == lid)
          (fun x => { x with status := newStatus })).find?
        (fun x => x.leave_id == lid) =
      some { l with status := newStatus } := by
    apply updateFirst_find_two _ _ _ _ _ _ hfind (fun y _ hy => hy)
    simpa using hpl
  have hbeq : (l.status == newStatus) = false := by simp [hne]
  by_cases happ : (newStatus == "approved") = true
  · exact ⟨updateFirst leaves (fun x => x.leave_id == lid)
        (fun x => { x with status := newStatus }),
      updateFirst emps (fun x => x.employee_id == l.employee_id)
        (fun x => { x with status := "leave" }),
      by simp [update_leave_status, hfind, hafter, hbeq, happ], hafter⟩
  · have happ' : (newStatus == "approved") = false := by simpa using happ
    exact ⟨updateFirst leaves (fun x => x.leave_id == lid)
        (fun x => { x with status := newStatus }), emps,
      by simp [update_leave_status, hfind, hafter, hbeq, happ'], hafter⟩

/-- Concrete instance of `update_leave_status_unrestricted`: approving a
pending request succeeds and stores the approved status. -/
theorem update_leave_status_unrestricted_witness :
    ([{ sampleLeave with status := "pending" }].find?
        (fun x => x.leave_id == "LV1") =
      some { sampleLeave with status := "pending" } ∧
     ({ sampleLeave with status := "pending" } : LeaveDoc).status ≠
      "approved") ∧
    (∃ newLeaves newEmps,
      update_leave_status [{ sampleLeave with status := "pending" }]
          [sampleEmp] "LV1" "approved" = .ok (newLeaves, newEmps) ∧
      newLeaves.find? (fun x => x.leave_id == "LV1") =
        some { { sampleLeave with status := "pending" } with
               status := "approved" }) :=
  ⟨⟨by decide, by decide⟩,
   update_leave_status_unrestricted [{ sampleLeave with status := "pending" }]
     [sampleEmp] "LV1" "approved" { sampleLeave with status := "pending" }
     (by decide) (by decide)⟩

/-- C10: a status update naming an existing leave request whose current
status already equals the requested one fails with 404 "Leave request
not found": `update_one` matches the document but modifies nothing, and
the code equates `modified_count == 0` with non-existence. -/
theorem leave_status_same_notfound (leaves : List LeaveDoc)
    (emps : List EmployeeDoc) (lid newStatus : String) (l : LeaveDoc)
    (hfind : leaves.find? (fun x => x.leave_id == lid) = some l)
    (heq : l.status = newStatus) :
    update_leave_status leaves emps lid newStatus =
      .error ⟨404, "Leave request not found"⟩ := by
  simp [update_leave_status, hfind, heq]

/-- Concrete instance of `leave_status_same_notfound`: re-approving the
already-approved request `LV1` yields 404 although it exists. -/
theorem leave_status_same_notfound_witness :
    ([sampleLeave].find? (fun x => x.leave_id == "LV1") = some sampleLeave ∧
     sampleLeave.status = "approved") ∧
    update_leave_status [sampleLeave] [sampleEmp] "LV1" "approved" =
      .error ⟨404, "Leave request not found"⟩ :=
  ⟨⟨by decide, rfl⟩,
   leave_status_same_notfound [sampleLeave] [sampleEmp] "LV1" "approved"
     sampleLeave (by decide) rfl⟩

end Dayflow
